import Mathlib

/-!
Verification of the Gimbal-LLM-Control core: the motion controller
(`src/core/gimbal_controller.py`) and the language-command service
(`src/llm/llm_service.py`), plus the command dispatcher
(`src/gui/main_window.py`, `execute_gimbal_command`).

Modelling conventions:
* Python floats are modelled as exact rationals (`ℚ`); float literals such
  as `0.1` and `speed / 100.0` become the exact rationals `1/10` and
  `speed / 100`.
* Python ints are `ℤ` (arbitrary precision in Python as well).
* Qt signal emissions (`status_changed.emit`, `position_changed.emit`) are
  modelled by returning, next to the new state, the list of events emitted
  by the call, in emission order.
* The Ollama network call is modelled by its outcome: `none` when the call
  raised (caught by the service and routed to the fallback), `some text`
  when it returned a response string.
-/

namespace Gimbal

/-- Events emitted through the controller's Qt signals. -/
inductive Event where
  | status_changed (s : String)
  | position_changed (pan tilt : ℚ) (speed : ℤ)
deriving DecidableEq

/-- State of `GimbalController`: the fields assigned in `__init__`, in
source order.  `status` is assigned `"Ready"` in `__init__` and never
reassigned anywhere in the class. -/
structure GimbalState where
  pan : ℚ
  tilt : ℚ
  speed : ℤ
  is_moving : Bool
  target_pan : ℚ
  target_tilt : ℚ
  status : String
deriving DecidableEq

/-- The state built by `GimbalController.__init__`. -/
def initState : GimbalState :=
  { pan := 0, tilt := 0, speed := 5, is_moving := false,
    target_pan := 0, target_tilt := 0, status := "Ready" }

/-- `GimbalController.pan_to(angle, speed)`: clamp the angle to
[-180, 180] into `target_pan`, clamp the speed to [1, 10], set
`is_moving`, emit a `"Moving"` status. -/
def pan_to (angle : ℚ) (speed : ℤ) (g : GimbalState) : GimbalState × List Event :=
  ({ g with target_pan := max (-180) (min 180 angle),
            speed := max 1 (min 10 speed),
            is_moving := true },
   [Event.status_changed "Moving"])

/-- `GimbalController.tilt_to(angle, speed)`: clamp the angle to
[-90, 90] into `target_tilt`, clamp the speed to [1, 10], set
`is_moving`, emit a `"Moving"` status. -/
def tilt_to (angle : ℚ) (speed : ℤ) (g : GimbalState) : GimbalState × List Event :=
  ({ g with target_tilt := max (-90) (min 90 angle),
            speed := max 1 (min 10 speed),
            is_moving := true },
   [Event.status_changed "Moving"])

/-- `GimbalController.move_to_home()`: `pan_to(0.0, 5)` then
`tilt_to(0.0, 5)`. -/
def move_to_home (g : GimbalState) : GimbalState × List Event :=
  let r1 := pan_to 0 5 g
  let r2 := tilt_to 0 5 r1.1
  (r2.1, r1.2 ++ r2.2)

/-- `GimbalController.stop()`: clear `is_moving`, copy the current
position into both targets, emit a `"Ready"` status. -/
def stop (g : GimbalState) : GimbalState × List Event :=
  ({ g with is_moving := false, target_pan := g.pan, target_tilt := g.tilt },
   [Event.status_changed "Ready"])

/-- `GimbalController.update()`, the per-frame tick: a no-op when not
moving; otherwise snap to the target and emit `"Ready"` when both
remaining distances are below 0.1, else advance each axis by its
remaining distance times `speed / 100`; in either moving branch a
position notification is emitted afterwards. -/
def update (g : GimbalState) : GimbalState × List Event :=
  if g.is_moving = true then
    let pan_diff := g.target_pan - g.pan
    let tilt_diff := g.target_tilt - g.tilt
    if |pan_diff| < 1/10 ∧ |tilt_diff| < 1/10 then
      let g2 := { g with pan := g.target_pan, tilt := g.target_tilt, is_moving := false }
      (g2, [Event.status_changed "Ready",
            Event.position_changed g2.pan g2.tilt g2.speed])
    else
      let move_speed : ℚ := (g.speed : ℚ) / 100
      let g2 := { g with pan := g.pan + pan_diff * move_speed,
                         tilt := g.tilt + tilt_diff * move_speed }
      (g2, [Event.position_changed g2.pan g2.tilt g2.speed])
  else (g, [])

/-- Iterated ticks: `ticks g n` is the state after `n` calls to
`update`, discarding the emitted events. -/
def ticks (g : GimbalState) : Nat → GimbalState
  | 0 => g
  | n + 1 => (update (ticks g n)).1

/-- States reachable from the freshly constructed controller by the
public operations (with arbitrary arguments) and ticks. -/
inductive Reachable : GimbalState → Prop where
  | init : Reachable initState
  | pan_step (a : ℚ) (s : ℤ) (g : GimbalState) :
      Reachable g → Reachable (pan_to a s g).1
  | tilt_step (a : ℚ) (s : ℤ) (g : GimbalState) :
      Reachable g → Reachable (tilt_to a s g).1
  | home_step (g : GimbalState) : Reachable g → Reachable (move_to_home g).1
  | stop_step (g : GimbalState) : Reachable g → Reachable (stop g).1
  | tick_step (g : GimbalState) : Reachable g → Reachable (update g).1

/-- The `GimbalCommand` dataclass of `llm_service.py`, with its field
defaults. -/
structure GimbalCommand where
  action : String
  value : ℚ := 0
  speed : ℤ := 5
  message : String := ""
  success : Bool := true
  error : Option String := none
deriving DecidableEq

/-- Lower-case one character, modelling Python `str.lower` on ASCII
letters (the only case conversion the command keywords need). -/
def py_lower_char (c : Char) : Char :=
  if 'A' ≤ c ∧ c ≤ 'Z' then Char.ofNat (c.toNat + 32) else c

/-- Whitespace characters removed by Python `str.strip` (ASCII range). -/
def is_py_space (c : Char) : Bool :=
  c = ' ' || c = '\t' || c = '\n' || c = '\r' || c = '\x0b' || c = '\x0c'

/-- Python `str.strip`: drop whitespace from both ends. -/
def py_strip (l : List Char) : List Char :=
  ((l.dropWhile is_py_space).reverse.dropWhile is_py_space).reverse

/-- The normalisation `command.lower().strip()` performed by
`LLMService._fallback_parsing`. -/
def normalize (s : String) : List Char :=
  py_strip (s.data.map py_lower_char)

/-- Whether `needle` is an initial segment of `hay`. -/
def startsWithL : List Char → List Char → Bool
  | [], _ => true
  | _ :: _, [] => false
  | a :: as, b :: bs => a == b && startsWithL as bs

/-- Substring containment, modelling Python's `needle in hay` on
strings: `needle` occurs contiguously somewhere in `hay`. -/
def containsSub (needle : List Char) : List Char → Bool
  | [] => startsWithL needle []
  | c :: rest => startsWithL needle (c :: rest) || containsSub needle rest

/-- Python `word in cmd` for a string literal `word`. -/
def hasWord (w : String) (cmd : List Char) : Bool :=
  containsSub w.data cmd

/-- Numeric value of a decimal digit character. -/
def digit_value (c : Char) : Nat := c.toNat - 48

/-- Value of a list of decimal digit characters, most significant
first (Python `int` on a digit string). -/
def digits_to_nat (l : List Char) : Nat :=
  l.foldl (fun n c => 10 * n + digit_value c) 0

/-- The first maximal run of decimal digits in the text, as a number:
`int(re.findall(r..., cmd)[0])` when a digit occurs, else `none`. -/
def first_number : List Char → Option Nat
  | [] => none
  | c :: rest =>
    if c.isDigit then some (digits_to_nat (c :: rest.takeWhile Char.isDigit))
    else first_number rest

/-- `LLMService._fallback_parsing`: keyword- and digit-based command
extraction, in the source's branch order. -/
def fallback_parsing (command : String) : GimbalCommand :=
  let cmd := normalize command
  if hasWord "home" cmd || hasWord "center" cmd then
    { action := "home", message := "Moving to home position" }
  else if hasWord "stop" cmd || hasWord "halt" cmd then
    { action := "stop", message := "Stopping movement" }
  else
    let degrees : Nat := (first_number cmd).getD 30
    if hasWord "pan" cmd || hasWord "left" cmd || hasWord "right" cmd then
      let direction : ℤ := if hasWord "left" cmd then -1 else 1
      { action := "pan", value := ((direction * (degrees : ℤ) : ℤ) : ℚ),
        message := "Panning " ++ (if hasWord "left" cmd then "left" else "right")
                   ++ " " ++ toString degrees ++ "°" }
    else if hasWord "tilt" cmd || hasWord "up" cmd || hasWord "down" cmd then
      let direction : ℤ := if hasWord "up" cmd then 1 else -1
      { action := "tilt", value := ((direction * (degrees : ℤ) : ℤ) : ℚ),
        message := "Tilting " ++ (if hasWord "up" cmd then "up" else "down")
                   ++ " " ++ toString degrees ++ "°" }
    else
      { action := "error", message := "Command not understood", success := false }

/-- Opening brace character. -/
def lbrace : Char := Char.ofNat 123

/-- Closing brace character. -/
def rbrace : Char := Char.ofNat 125

/-- The regex search in `_parse_llm_response` for a brace-delimited run:
the leftmost occurrence of an opening brace followed by at least one
non-closing-brace character and then a closing brace. -/
def extract_brace : List Char → Option (List Char)
  | [] => none
  | c :: rest =>
    if c = lbrace then
      let body := rest.takeWhile (fun d => d ≠ rbrace)
      if 0 < body.length ∧ body.length < rest.length then
        some ((lbrace :: body) ++ [rbrace])
      else extract_brace rest
    else extract_brace rest

/-- JSON insignificant whitespace. -/
def json_ws (c : Char) : Bool :=
  c = ' ' || c = '\t' || c = '\n' || c = '\r'

/-- Drop leading JSON whitespace. -/
def skip_ws (l : List Char) : List Char := l.dropWhile json_ws

/-- Value of a hexadecimal digit character. -/
def hex_val (c : Char) : Option Nat :=
  if '0' ≤ c ∧ c ≤ '9' then some (c.toNat - 48)
  else if 'a' ≤ c ∧ c ≤ 'f' then some (c.toNat - 87)
  else if 'A' ≤ c ∧ c ≤ 'F' then some (c.toNat - 55)
  else none

/-- Single-character JSON string escapes. -/
def escape_char (c : Char) : Option Char :=
  if c = '\"' then some '\"'
  else if c = '\\' then some '\\'
  else if c = '/' then some '/'
  else if c = 'b' then some '\x08'
  else if c = 'f' then some '\x0c'
  else if c = 'n' then some '\n'
  else if c = 'r' then some '\r'
  else if c = 't' then some '\t'
  else none

/-- Parse the remainder of a JSON string after its opening quote,
returning the decoded content and the input after the closing quote.
Lone-surrogate escape pairs (accepted by Python, not Unicode scalar
values) are outside the modelled subset. -/
def parse_string_rest : Nat → List Char → Option (List Char × List Char)
  | 0, _ => none
  | _ + 1, [] => none
  | fuel + 1, c :: rest =>
    if c = '\"' then some ([], rest)
    else if c = '\\' then
      match rest with
      | [] => none
      | e :: rest2 =>
        if e = 'u' then
          match rest2 with
          | h1 :: h2 :: h3 :: h4 :: rest3 =>
            match hex_val h1, hex_val h2, hex_val h3, hex_val h4 with
            | some a, some b, some c2, some d =>
              let n := ((a * 16 + b) * 16 + c2) * 16 + d
              if n < 0xd800 ∨ (0xdfff < n ∧ n < 0x110000) then
                match parse_string_rest fuel rest3 with
                | some (s, r) => some (Char.ofNat n :: s, r)
                | none => none
              else none
            | _, _, _, _ => none
          | _ => none
        else
          match escape_char e with
          | some ec =>
            match parse_string_rest fuel rest2 with
            | some (s, r) => some (ec :: s, r)
            | none => none
          | none => none
    else if c.toNat < 32 then none
    else
      match parse_string_rest fuel rest with
      | some (s, r) => some (c :: s, r)
      | none => none

/-- Split off the leading run of decimal digits. -/
def span_digits (l : List Char) : List Char × List Char :=
  (l.takeWhile Char.isDigit, l.dropWhile Char.isDigit)

/-- Rational power of ten. -/
def pow10 (n : Nat) : ℚ := (10 : ℚ) ^ n

/-- Parse an optional JSON fraction part, returning its value. -/
def parse_frac (l : List Char) : Option (ℚ × List Char) :=
  match l with
  | c :: rest =>
    if c = '.' then
      let (ds, l2) := span_digits rest
      if ds.isEmpty then none
      else some ((digits_to_nat ds : ℚ) / pow10 ds.length, l2)
    else some (0, c :: rest)
  | [] => some (0, [])

/-- Parse an optional exponent part, returning the power-of-ten
multiplier it denotes. -/
def parse_exp (l : List Char) : Option (ℚ × List Char) :=
  match l with
  | c :: rest =>
    if c = 'e' ∨ c = 'E' then
      let (eneg, rest1) :=
        match rest with
        | d :: rest2 =>
          if d = '-' then (true, rest2)
          else if d = '+' then (false, rest2)
          else (false, d :: rest2)
        | [] => (false, ([] : List Char))
      let (ds, l2) := span_digits rest1
      if ds.isEmpty then none
      else
        let e := digits_to_nat ds
        some (if eneg then 1 / pow10 e else pow10 e, l2)
    else some (1, c :: rest)
  | [] => some (1, [])

/-- Parse a JSON number (sign, integer part without leading zeros,
optional fraction and exponent) as an exact rational. -/
def parse_json_number (l : List Char) : Option (ℚ × List Char) :=
  let (neg, l1) :=
    match l with
    | c :: rest => if c = '-' then (true, rest) else (false, c :: rest)
    | [] => (false, ([] : List Char))
  match span_digits l1 with
  | ([], _) => none
  | (intDigits, l2) =>
    if 1 < intDigits.length ∧ intDigits.head? = some '0' then none
    else
      match parse_frac l2 with
      | none => none
      | some (fv, l3) =>
        match parse_exp l3 with
        | none => none
        | some (mult, l4) =>
          let m : ℚ := (digits_to_nat intDigits : ℚ) + fv
          some ((if neg then -m else m) * mult, l4)

/-- JSON values as produced by `json.loads` on the extracted candidate.
A nested object would need its own closing brace, which the
brace-extraction step never leaves inside a candidate, so objects can
occur only at top level and are not value constructors here. -/
inductive JVal where
  | jnum (q : ℚ)
  | jstr (s : List Char)
  | jbool (b : Bool)
  | jnull
  | jarr (xs : List JVal)

mutual

/-- Parse one JSON value (string, literal, array or number). A value
starting with an opening brace can never complete inside a candidate
extracted by `extract_brace` and is rejected, as `json.loads` would
reject the unclosed object. -/
def parse_value : Nat → List Char → Option (JVal × List Char)
  | 0, _ => none
  | fuel + 1, l =>
    match skip_ws l with
    | [] => none
    | c :: rest =>
      if c = '\"' then
        match parse_string_rest (rest.length + 1) rest with
        | some (s, r) => some (JVal.jstr s, r)
        | none => none
      else if c = 't' then
        match rest with
        | 'r' :: 'u' :: 'e' :: r => some (JVal.jbool true, r)
        | _ => none
      else if c = 'f' then
        match rest with
        | 'a' :: 'l' :: 's' :: 'e' :: r => some (JVal.jbool false, r)
        | _ => none
      else if c = 'n' then
        match rest with
        | 'u' :: 'l' :: 'l' :: r => some (JVal.jnull, r)
        | _ => none
      else if c = '[' then
        match parse_array_items fuel rest with
        | some (xs, r) => some (JVal.jarr xs, r)
        | none => none
      else
        match parse_json_number (c :: rest) with
        | some (q, r) => some (JVal.jnum q, r)
        | none => none

/-- Parse array contents directly after the opening bracket: an empty
array or a first element followed by more. -/
def parse_array_items : Nat → List Char → Option (List JVal × List Char)
  | 0, _ => none
  | fuel + 1, l =>
    match skip_ws l with
    | [] => none
    | c :: rest =>
      if c = ']' then some ([], rest)
      else
        match parse_value fuel (c :: rest) with
        | none => none
        | some (v, r) =>
          match parse_array_more fuel r with
          | some (vs, r2) => some (v :: vs, r2)
          | none => none

/-- Parse array continuation after an element: a closing bracket, or a
comma followed by a mandatory further element. -/
def parse_array_more : Nat → List Char → Option (List JVal × List Char)
  | 0, _ => none
  | fuel + 1, l =>
    match skip_ws l with
    | [] => none
    | c :: rest =>
      if c = ']' then some ([], rest)
      else if c = ',' then
        match parse_value fuel rest with
        | none => none
        | some (v, r) =>
          match parse_array_more fuel r with
          | some (vs, r2) => some (v :: vs, r2)
          | none => none
      else none

end

/-- Parse one or more comma-separated `key : value` members. -/
def parse_members : Nat → List Char → Option (List (List Char × JVal) × List Char)
  | 0, _ => none
  | fuel + 1, l =>
    match skip_ws l with
    | [] => none
    | c :: rest =>
      if c = '\"' then
        match parse_string_rest (rest.length + 1) rest with
        | none => none
        | some (key, r) =>
          match skip_ws r with
          | [] => none
          | d :: r2 =>
            if d = ':' then
              match parse_value (r2.length + 1) r2 with
              | none => none
              | some (v, r3) =>
                match skip_ws r3 with
                | [] => some ([(key, v)], [])
                | e :: r4 =>
                  if e = ',' then
                    match parse_members fuel r4 with
                    | some (ps, r5) => some ((key, v) :: ps, r5)
                    | none => none
                  else some ([(key, v)], e :: r4)
            else none
      else none

/-- Python `json.loads` on a brace-extracted candidate: a top-level
object (possibly empty), surrounded by nothing but whitespace, as an
association list in source order. -/
def json_loads (l : List Char) : Option (List (List Char × JVal)) :=
  match skip_ws l with
  | [] => none
  | c :: rest =>
    if c = lbrace then
      match skip_ws rest with
      | [] => none
      | d :: rest2 =>
        if d = rbrace then
          if (skip_ws rest2).isEmpty then some [] else none
        else
          match parse_members (rest.length + 1) (d :: rest2) with
          | none => none
          | some (ps, r) =>
            match skip_ws r with
            | [] => none
            | e :: r2 =>
              if e = rbrace then
                if (skip_ws r2).isEmpty then some ps else none
              else none
    else none

/-- Python `dict` lookup on the parsed members: with duplicate keys the
last occurrence wins, as in `json.loads`. -/
def dict_get (pairs : List (List Char × JVal)) (key : String) : Option JVal :=
  match pairs.reverse.find? (fun p => p.1 == key.data) with
  | some p => some p.2
  | none => none

/-- Python `str()` of a JSON value, used for the `action` and `message`
fields. Python stores the raw object; only its text and its equality
with the action keyword strings matter downstream, and no non-string
value can print as one of `pan`, `tilt`, `home`, `stop` or `error`, so
the stand-in texts for numbers and arrays are immaterial. -/
def py_str : JVal → String
  | .jstr s => String.mk s
  | .jnum q => toString q
  | .jbool b => if b then "True" else "False"
  | .jnull => "None"
  | .jarr _ => "[...]"

/-- Truncation toward zero, the behaviour of Python `int()` on a
number. -/
def rat_trunc (q : ℚ) : ℤ :=
  if q < 0 then -(Int.floor (-q)) else Int.floor q

/-- Python `float(str)`: strip whitespace, optional sign, digits with
optional fraction and exponent. `inf`, `nan` and digit underscores are
outside the modelled subset. Shared tail of the float parse once the
sign and the digit groups are read. -/
def finish_float (neg : Bool) (ip fp : List Char) (l : List Char) : Option ℚ :=
  match parse_exp l with
  | none => none
  | some (mult, rest) =>
    if rest.isEmpty then
      let m : ℚ := (digits_to_nat ip : ℚ) + (digits_to_nat fp : ℚ) / pow10 fp.length
      some ((if neg then -m else m) * mult)
    else none

/-- Python `float` applied to a string. -/
def parse_py_float (l0 : List Char) : Option ℚ :=
  let l := py_strip l0
  let (neg, l1) :=
    match l with
    | c :: rest =>
      if c = '-' then (true, rest)
      else if c = '+' then (false, rest)
      else (false, c :: rest)
    | [] => (false, ([] : List Char))
  let (intDigits, l2) := span_digits l1
  match l2 with
  | c :: rest =>
    if c = '.' then
      let (fracDigits, l3) := span_digits rest
      if intDigits.isEmpty ∧ fracDigits.isEmpty then none
      else finish_float neg intDigits fracDigits l3
    else if intDigits.isEmpty then none
    else finish_float neg intDigits [] (c :: rest)
  | [] =>
    if intDigits.isEmpty then none
    else finish_float neg intDigits [] []

/-- Python `int` applied to a string: strip whitespace, optional sign,
decimal digits and nothing else. -/
def parse_py_int (l0 : List Char) : Option ℤ :=
  let l := py_strip l0
  let (neg, l1) :=
    match l with
    | c :: rest =>
      if c = '-' then (true, rest)
      else if c = '+' then (false, rest)
      else (false, c :: rest)
    | [] => (false, ([] : List Char))
  let (ds, l2) := span_digits l1
  if ds.isEmpty ∨ ¬ l2.isEmpty then none
  else some (if neg then -(digits_to_nat ds : ℤ) else (digits_to_nat ds : ℤ))

/-- Python `float(value)` on a JSON value: `none` models a raised
`TypeError` or `ValueError`. -/
def py_float : JVal → Option ℚ
  | .jnum q => some q
  | .jbool b => some (if b then 1 else 0)
  | .jstr s => parse_py_float s
  | .jnull => none
  | .jarr _ => none

/-- Python `int(value)` on a JSON value: `none` models a raised
`TypeError` or `ValueError`. -/
def py_int : JVal → Option ℤ
  | .jnum q => some (rat_trunc q)
  | .jbool b => some (if b then 1 else 0)
  | .jstr s => parse_py_int s
  | .jnull => none
  | .jarr _ => none

/-- The `try` body of `_parse_llm_response`: extract the brace-delimited
candidate, `json.loads` it, and build the `GimbalCommand` with the
source's defaults and coercions. `none` models any raised exception
(no candidate, JSON error, failed `float`/`int` coercion), which the
source's `except` clause routes to the fallback. -/
def llm_parse_result (response : List Char) : Option GimbalCommand :=
  match extract_brace response with
  | none => none
  | some cand =>
    match json_loads cand with
    | none => none
    | some data =>
      let valueV : Option ℚ :=
        match dict_get data "value" with
        | none => some 0
        | some v => py_float v
      let speedV : Option ℤ :=
        match dict_get data "speed" with
        | none => some 5
        | some v => py_int v
      match valueV, speedV with
      | some value, some speed =>
        some { action := (match dict_get data "action" with
                          | some v => py_str v
                          | none => "error"),
               value := value,
               speed := max 1 (min 10 speed),
               message := (match dict_get data "message" with
                           | some v => py_str v
                           | none => "Executing " ++
                               (match dict_get data "action" with
                                | some v => py_str v
                                | none => "None") ++ " command"),
               success := true }
      | _, _ => none

/-- `LLMService._parse_llm_response`: the parsed command when the `try`
body succeeds, otherwise the deterministic fallback on the original
command text. -/
def parse_llm_response (response : String) (original_command : String) : GimbalCommand :=
  match llm_parse_result response.data with
  | some c => c
  | none => fallback_parsing original_command

/-- `LLMService.process_command` composed with `_process_with_ollama`:
when Ollama is available and the chat call returns text, that text is
stripped and parsed; a raised chat call (`none`) and an unavailable
backend both route to the fallback. The outer exception handler of
`process_command` is unreachable because the fallback itself cannot
raise. -/
def process_command (ollama_available : Bool) (remote_response : Option String)
    (command : String) : GimbalCommand :=
  if ollama_available then
    match remote_response with
    | some r => parse_llm_response (String.mk (py_strip r.data)) command
    | none => fallback_parsing command
  else fallback_parsing command

/-- Whether the response text contains a brace-delimited candidate that
`json.loads` accepts. -/
def has_parseable_json (l : List Char) : Bool :=
  match extract_brace l with
  | none => false
  | some cand => (json_loads cand).isSome

/-- `MainWindow.execute_gimbal_command`: dispatch one command to the
controller; unrecognised actions fall through with no effect. -/
def execute_gimbal_command (command : GimbalCommand) (g : GimbalState) :
    GimbalState × List Event :=
  if command.action = "home" then move_to_home g
  else if command.action = "stop" then stop g
  else if command.action = "pan" then pan_to command.value command.speed g
  else if command.action = "tilt" then tilt_to command.value command.speed g
  else (g, [])

/-! Helper lemmas about the controller. -/

/-- A tick on a non-moving controller changes nothing and emits
nothing. -/
theorem update_not_moving (g : GimbalState) (h : g.is_moving = false) :
    update g = (g, []) := by
  unfold update
  rw [h]
  simp

/-- No controller operation ever assigns `status`; a tick preserves the
field. -/
theorem update_status (g : GimbalState) : (update g).1.status = g.status := by
  unfold update
  dsimp only
  split_ifs <;> rfl

/-- The `status` field is assigned `"Ready"` in `__init__` and nowhere
else, so it reads `"Ready"` in every reachable state. -/
theorem reachable_status (g : GimbalState) (h : Reachable g) :
    g.status = "Ready" := by
  induction h with
  | init => rfl
  | pan_step a s g hg ih => simpa [pan_to] using ih
  | tilt_step a s g hg ih => simpa [tilt_to] using ih
  | home_step g hg ih => simpa [move_to_home, pan_to, tilt_to] using ih
  | stop_step g hg ih => simpa [stop] using ih
  | tick_step g hg ih => rw [update_status]; exact ih

/-- Claim C7: when `isMoving` is false a tick is a no-op that emits
nothing; after `stop()` any number of ticks leaves the state—and in
particular the position—unchanged, with status `"Ready"`. -/
theorem claim_C7 (g : GimbalState) (n : ℕ) (hm : g.is_moving = false)
    (hr : Reachable g) :
    update g = (g, []) ∧
    ticks (stop g).1 n = (stop g).1 ∧
    (ticks (stop g).1 n).status = "Ready" := by
  have hstop : (stop g).1.is_moving = false := rfl
  have hfix : ticks (stop g).1 n = (stop g).1 := by
    induction n with
    | zero => rfl
    | succ k ih =>
      show (update (ticks (stop g).1 k)).1 = (stop g).1
      rw [ih, update_not_moving _ hstop]
  refine ⟨update_not_moving g hm, hfix, ?_⟩
  rw [hfix]
  show g.status = "Ready"
  exact reachable_status g hr

/-- Witness for C7 at the freshly initialised controller and three
ticks. -/
theorem claim_C7_witness :
    update initState = (initState, []) ∧
    ticks (stop initState).1 3 = (stop initState).1 ∧
    (ticks (stop initState).1 3).status = "Ready" :=
  claim_C7 initState 3 rfl Reachable.init

/-- Claim C2: `pan_to` stores the pan target clamped to [-180, 180],
`tilt_to` stores the tilt target clamped to [-90, 90], and both store
the speed clamped to [1, 10], for arbitrary inputs. -/
theorem claim_C2 (a : ℚ) (s : ℤ) (g : GimbalState) :
    (pan_to a s g).1.target_pan = max (-180) (min 180 a) ∧
    (pan_to a s g).1.speed = max 1 (min 10 s) ∧
    (tilt_to a s g).1.target_tilt = max (-90) (min 90 a) ∧
    (tilt_to a s g).1.speed = max 1 (min 10 s) :=
  ⟨rfl, rfl, rfl, rfl⟩

/-- Claim C9: the fallback parser never sets the `speed` field, so every
command it produces carries the dataclass default 5. -/
theorem claim_C9 (command : String) : (fallback_parsing command).speed = 5 := by
  unfold fallback_parsing
  dsimp only
  split_ifs <;> rfl

/-- Claim C10: a command whose action is none of `home`, `stop`, `pan`,
`tilt` is silently dropped by the dispatcher: the state is unchanged
and nothing is emitted. -/
theorem claim_C10 (c : GimbalCommand) (g : GimbalState)
    (h1 : c.action ≠ "home") (h2 : c.action ≠ "stop")
    (h3 : c.action ≠ "pan") (h4 : c.action ≠ "tilt") :
    execute_gimbal_command c g = (g, []) := by
  unfold execute_gimbal_command
  rw [if_neg h1, if_neg h2, if_neg h3, if_neg h4]

/-- Witness for C10 at a concrete error command. -/
theorem claim_C10_witness :
    execute_gimbal_command
      { action := "error", message := "Command not understood", success := false }
      initState = (initState, []) :=
  claim_C10 _ _ (by decide) (by decide) (by decide) (by decide)

/-- Range invariant maintained by every controller operation: position
and target of each axis stay inside the clamp bounds and the speed
stays in [1, 10]. -/
def InRange (g : GimbalState) : Prop :=
  -180 ≤ g.pan ∧ g.pan ≤ 180 ∧ -180 ≤ g.target_pan ∧ g.target_pan ≤ 180 ∧
  -90 ≤ g.tilt ∧ g.tilt ≤ 90 ∧ -90 ≤ g.target_tilt ∧ g.target_tilt ≤ 90 ∧
  1 ≤ g.speed ∧ g.speed ≤ 10

/-- A point moved a fraction `t ∈ [0, 1]` of the way from `a` toward
`b` stays inside any interval containing both. -/
theorem between_bounds (lo hi a b t : ℚ) (h1 : lo ≤ a) (h2 : a ≤ hi)
    (h3 : lo ≤ b) (h4 : b ≤ hi) (h5 : 0 ≤ t) (h6 : t ≤ 1) :
    lo ≤ a + (b - a) * t ∧ a + (b - a) * t ≤ hi := by
  constructor <;> nlinarith

/-- Every reachable state satisfies the range invariant. -/
theorem reachable_in_range (g : GimbalState) (h : Reachable g) : InRange g := by
  induction h with
  | init =>
    refine ⟨?_, ?_, ?_, ?_, ?_, ?_, ?_, ?_, ?_, ?_⟩ <;> norm_num [initState]
  | pan_step a s g hg ih =>
    obtain ⟨p1, p2, tp1, tp2, t1, t2, tt1, tt2, s1, s2⟩ := ih
    simp only [InRange, pan_to]
    refine ⟨p1, p2, le_max_left _ _, max_le (by norm_num) (min_le_left _ _),
      t1, t2, tt1, tt2, le_max_left _ _, max_le (by norm_num) (min_le_left _ _)⟩
  | tilt_step a s g hg ih =>
    obtain ⟨p1, p2, tp1, tp2, t1, t2, tt1, tt2, s1, s2⟩ := ih
    simp only [InRange, tilt_to]
    refine ⟨p1, p2, tp1, tp2, t1, t2, le_max_left _ _,
      max_le (by norm_num) (min_le_left _ _),
      le_max_left _ _, max_le (by norm_num) (min_le_left _ _)⟩
  | home_step g hg ih =>
    obtain ⟨p1, p2, tp1, tp2, t1, t2, tt1, tt2, s1, s2⟩ := ih
    simp only [InRange, move_to_home, pan_to, tilt_to]
    refine ⟨p1, p2, ?_, ?_, t1, t2, ?_, ?_, ?_, ?_⟩ <;> norm_num
  | stop_step g hg ih =>
    obtain ⟨p1, p2, tp1, tp2, t1, t2, tt1, tt2, s1, s2⟩ := ih
    exact ⟨p1, p2, p1, p2, t1, t2, t1, t2, s1, s2⟩
  | tick_step g hg ih =>
    obtain ⟨p1, p2, tp1, tp2, t1, t2, tt1, tt2, s1, s2⟩ := ih
    unfold update
    dsimp only
    split_ifs with hmov hclose
    · exact ⟨tp1, tp2, tp1, tp2, tt1, tt2, tt1, tt2, s1, s2⟩
    · have hs1 : (1 : ℚ) ≤ (g.speed : ℚ) := by exact_mod_cast s1
      have hs2 : (g.speed : ℚ) ≤ 10 := by exact_mod_cast s2
      have ht0 : (0 : ℚ) ≤ (g.speed : ℚ) / 100 := by linarith
      have ht1 : (g.speed : ℚ) / 100 ≤ 1 := by linarith
      have hpan := between_bounds (-180) 180 g.pan g.target_pan
        ((g.speed : ℚ) / 100) p1 p2 tp1 tp2 ht0 ht1
      have htilt := between_bounds (-90) 90 g.tilt g.target_tilt
        ((g.speed : ℚ) / 100) t1 t2 tt1 tt2 ht0 ht1
      exact ⟨hpan.1, hpan.2, tp1, tp2, htilt.1, htilt.2, tt1, tt2, s1, s2⟩
    · exact ⟨p1, p2, tp1, tp2, t1, t2, tt1, tt2, s1, s2⟩

/-- Claim C5: in every reachable state the pan angle stays in
[-180, 180] and the tilt angle in [-90, 90]. -/
theorem claim_C5 (g : GimbalState) (h : Reachable g) :
    -180 ≤ g.pan ∧ g.pan ≤ 180 ∧ -90 ≤ g.tilt ∧ g.tilt ≤ 90 := by
  obtain ⟨p1, p2, _, _, t1, t2, _⟩ := reachable_in_range g h
  exact ⟨p1, p2, t1, t2⟩

/-- Witness for C5 at the initial state. -/
theorem claim_C5_witness :
    -180 ≤ initState.pan ∧ initState.pan ≤ 180 ∧
    -90 ≤ initState.tilt ∧ initState.tilt ≤ 90 :=
  claim_C5 initState Reachable.init

/-- Clearing `is_moving` and position agreeing with target go together
in every reachable state. -/
theorem reachable_sync (g : GimbalState) (h : Reachable g) :
    g.is_moving = false → g.pan = g.target_pan ∧ g.tilt = g.target_tilt := by
  induction h with
  | init => intro _; exact ⟨rfl, rfl⟩
  | pan_step a s g hg ih => intro hm; simp [pan_to] at hm
  | tilt_step a s g hg ih => intro hm; simp [tilt_to] at hm
  | home_step g hg ih => intro hm; simp [move_to_home, pan_to, tilt_to] at hm
  | stop_step g hg ih => intro _; exact ⟨rfl, rfl⟩
  | tick_step g hg ih =>
    unfold update
    dsimp only
    split_ifs with hmov hclose
    · intro _; exact ⟨rfl, rfl⟩
    · intro hm; exact absurd (hmov.symm.trans hm) (by simp)
    · exact ih

/-- Claim C6: in every reachable state, `isMoving = false` implies that
position equals target exactly on both axes. -/
theorem claim_C6 (g : GimbalState) (h : Reachable g) (hm : g.is_moving = false) :
    g.pan = g.target_pan ∧ g.tilt = g.target_tilt :=
  reachable_sync g h hm

/-- Witness for C6 at the initial state. -/
theorem claim_C6_witness :
    initState.pan = initState.target_pan ∧ initState.tilt = initState.target_tilt :=
  claim_C6 initState Reachable.init rfl

/-- The C1 scenario start: pan 0, pan target 100, tilt and tilt target
0, moving, at a given speed. -/
def start_state (sp : ℤ) : GimbalState :=
  { pan := 0, tilt := 0, speed := sp, is_moving := true,
    target_pan := 100, target_tilt := 0, status := "Ready" }

/-- Per-tick retention factor of the remaining distance. -/
def decay (sp : ℤ) : ℚ := 1 - (sp : ℚ) / 100

/-- The scenario state still in flight after `n` ticks. -/
def moving_state (sp : ℤ) (n : ℕ) : GimbalState :=
  { pan := 100 - 100 * decay sp ^ n, tilt := 0, speed := sp, is_moving := true,
    target_pan := 100, target_tilt := 0, status := "Ready" }

/-- The scenario state after arrival. -/
def done_state (sp : ℤ) : GimbalState :=
  { pan := 100, tilt := 0, speed := sp, is_moving := false,
    target_pan := 100, target_tilt := 0, status := "Ready" }

/-- The arrived scenario state is a fixed point of ticking. -/
theorem update_done (sp : ℤ) : update (done_state sp) = (done_state sp, []) :=
  update_not_moving _ rfl

/-- One tick of the in-flight scenario state: snap to the target when
the remaining distance `100 * decay ^ n` has fallen below 0.1,
otherwise keep flying with the distance contracted by the decay
factor. -/
theorem update_moving (sp : ℤ) (h1 : 1 ≤ sp) (h2 : sp ≤ 10) (n : ℕ) :
    (update (moving_state sp n)).1 =
      if 100 * decay sp ^ n < 1/10 then done_state sp
      else moving_state sp (n + 1) := by
  have hs1 : (1 : ℚ) ≤ (sp : ℚ) := by exact_mod_cast h1
  have hs2 : (sp : ℚ) ≤ 10 := by exact_mod_cast h2
  have hd0 : 0 ≤ decay sp := by unfold decay; linarith
  have hnn : (0 : ℚ) ≤ 100 * decay sp ^ n :=
    mul_nonneg (by norm_num) (pow_nonneg hd0 n)
  unfold update moving_state done_state
  dsimp only
  have e1 : (100 : ℚ) - (100 - 100 * decay sp ^ n) = 100 * decay sp ^ n := by ring
  have e2 : (0 : ℚ) - 0 = 0 := by ring
  rw [e1, e2, abs_of_nonneg hnn, abs_zero]
  by_cases hc : 100 * decay sp ^ n < 1/10
  · rw [if_pos hc,
      if_pos (show 100 * decay sp ^ n < 1/10 ∧ (0 : ℚ) < 1/10 from ⟨hc, by norm_num⟩)]
    rfl
  · rw [if_neg hc,
      if_neg (show ¬(100 * decay sp ^ n < 1/10 ∧ (0 : ℚ) < 1/10) from
        fun hand => hc hand.1)]
    show (GimbalState.mk _ _ _ _ _ _ _) = GimbalState.mk _ _ _ _ _ _ _
    congr 1
    · simp only [decay]; ring
    · ring

/-- After `n` ticks the scenario is either already arrived or still in
flight with remaining distance `100 * decay ^ n`. -/
theorem scenario_classify (sp : ℤ) (h1 : 1 ≤ sp) (h2 : sp ≤ 10) (n : ℕ) :
    ticks (start_state sp) n = done_state sp ∨
    ticks (start_state sp) n = moving_state sp n := by
  induction n with
  | zero =>
    right
    show start_state sp = moving_state sp 0
    unfold moving_state start_state
    congr 1
    ring
  | succ k ih =>
    rcases ih with hk | hk
    · left
      show (update (ticks (start_state sp) k)).1 = done_state sp
      rw [hk, update_done]
    · show (update (ticks (start_state sp) k)).1 = done_state sp ∨
        (update (ticks (start_state sp) k)).1 = moving_state sp (k + 1)
      rw [hk, update_moving sp h1 h2 k]
      by_cases hc : 100 * decay sp ^ k < 1/10
      · left; rw [if_pos hc]
      · right; rw [if_neg hc]

/-- Claim C1: a tick of a moving state with either remaining distance
at least 0.1 advances each axis by its remaining distance times
`speed / 100`; from pan 0, target 100, speed 5 one tick gives pan 5;
and for any speed in [1, 10] the scenario pan is monotone, never
overshoots 100, and some tick count reaches `isMoving = false` with
pan exactly 100. -/
theorem claim_C1 (g : GimbalState) (sp : ℤ) (hmov : g.is_moving = true)
    (hfar : 1/10 ≤ |g.target_pan - g.pan| ∨ 1/10 ≤ |g.target_tilt - g.tilt|)
    (hsp1 : 1 ≤ sp) (hsp2 : sp ≤ 10) :
    ((update g).1.pan = g.pan + (g.target_pan - g.pan) * ((g.speed : ℚ) / 100) ∧
     (update g).1.tilt = g.tilt + (g.target_tilt - g.tilt) * ((g.speed : ℚ) / 100)) ∧
    (ticks (start_state 5) 1).pan = 5 ∧
    (∀ n : ℕ, (ticks (start_state sp) n).pan ≤ (ticks (start_state sp) (n + 1)).pan ∧
      (ticks (start_state sp) n).pan ≤ 100) ∧
    (∃ N : ℕ, (ticks (start_state sp) N).is_moving = false ∧
      (ticks (start_state sp) N).pan = 100) := by
  have hs1 : (1 : ℚ) ≤ (sp : ℚ) := by exact_mod_cast hsp1
  have hs2 : (sp : ℚ) ≤ 10 := by exact_mod_cast hsp2
  have hd0 : 0 ≤ decay sp := by unfold decay; linarith
  have hd1 : decay sp < 1 := by unfold decay; linarith
  have hpan100 : ∀ n, (moving_state sp n).pan ≤ 100 := by
    intro n
    have := pow_nonneg hd0 n
    show 100 - 100 * decay sp ^ n ≤ (100 : ℚ)
    nlinarith
  refine ⟨?_, ?_, ?_, ?_⟩
  · unfold update
    dsimp only
    rw [if_pos hmov, if_neg ?_]
    · exact ⟨rfl, rfl⟩
    · rintro ⟨ha, hb⟩
      rcases hfar with hf | hf
      · exact absurd ha (not_lt.mpr hf)
      · exact absurd hb (not_lt.mpr hf)
  · have h0 : start_state 5 = moving_state 5 0 := by
      unfold moving_state start_state
      congr 1
      ring
    show (update (ticks (start_state 5) 0)).1.pan = 5
    rw [show ticks (start_state 5) 0 = start_state 5 from rfl, h0,
      update_moving 5 (by norm_num) (by norm_num) 0]
    rw [if_neg (by norm_num [decay])]
    show (100 : ℚ) - 100 * decay 5 ^ 1 = 5
    norm_num [decay]
  · intro n
    rcases scenario_classify sp hsp1 hsp2 n with hn | hn
    · have hn1 : ticks (start_state sp) (n + 1) = done_state sp := by
        show (update (ticks (start_state sp) n)).1 = done_state sp
        rw [hn, update_done]
      rw [hn, hn1]
      exact ⟨le_refl _, by norm_num [done_state, start_state]⟩
    · have hn1 : ticks (start_state sp) (n + 1)
          = if 100 * decay sp ^ n < 1/10 then done_state sp
            else moving_state sp (n + 1) := by
        show (update (ticks (start_state sp) n)).1 = _
        rw [hn, update_moving sp hsp1 hsp2 n]
      rw [hn, hn1]
      by_cases hc : 100 * decay sp ^ n < 1/10
      · rw [if_pos hc]
        exact ⟨hpan100 n, hpan100 n⟩
      · rw [if_neg hc]
        constructor
        · show 100 - 100 * decay sp ^ n ≤ 100 - 100 * decay sp ^ (n + 1)
          have hpow : decay sp ^ (n + 1) ≤ decay sp ^ n := by
            rw [pow_succ]
            have := pow_nonneg hd0 n
            nlinarith
          linarith
        · exact hpan100 n
  · obtain ⟨N, hN⟩ := exists_pow_lt_of_lt_one
      (show (0 : ℚ) < 1/1000 by norm_num) hd1
    have hsmall : 100 * decay sp ^ N < 1/10 := by
      have := pow_nonneg hd0 N
      nlinarith
    rcases scenario_classify sp hsp1 hsp2 N with hn | hn
    · exact ⟨N, by rw [hn]; exact rfl, by rw [hn]; exact rfl⟩
    · refine ⟨N + 1, ?_, ?_⟩ <;>
      · show _ = _
        have : ticks (start_state sp) (N + 1) = done_state sp := by
          show (update (ticks (start_state sp) N)).1 = done_state sp
          rw [hn, update_moving sp hsp1 hsp2 N, if_pos hsmall]
        rw [this]
        rfl

/-- Witness for C1 at the scenario start state and speed 5. -/
theorem claim_C1_witness :
    ((update (start_state 5)).1.pan
        = (start_state 5).pan
          + ((start_state 5).target_pan - (start_state 5).pan)
            * (((start_state 5).speed : ℚ) / 100) ∧
     (update (start_state 5)).1.tilt
        = (start_state 5).tilt
          + ((start_state 5).target_tilt - (start_state 5).tilt)
            * (((start_state 5).speed : ℚ) / 100)) ∧
    (ticks (start_state 5) 1).pan = 5 ∧
    (∀ n : ℕ, (ticks (start_state 5) n).pan ≤ (ticks (start_state 5) (n + 1)).pan ∧
      (ticks (start_state 5) n).pan ≤ 100) ∧
    (∃ N : ℕ, (ticks (start_state 5) N).is_moving = false ∧
      (ticks (start_state 5) N).pan = 100) :=
  claim_C1 (start_state 5) 5 rfl
    (Or.inl (by
      show (1 : ℚ)/10 ≤ |(100 : ℚ) - 0|
      rw [sub_zero, abs_of_nonneg (by norm_num : (0 : ℚ) ≤ 100)]
      norm_num))
    (by norm_num) (by norm_num)

/-- Description of the fallback parser transcribed from the claim's
wording, producing the (action, value, success) triple: lower-case and
trim; `home`/`center` give home; else `stop`/`halt` give stop; else,
with the first digit run (default 30) as magnitude, `pan`/`left`/
`right` give pan with value negated exactly when `left` occurs; else
`tilt`/`up`/`down` give tilt with value positive exactly when `up`
occurs; else an unsuccessful error. -/
def fallback_claim (command : String) : String × ℚ × Bool :=
  let cmd := normalize command
  if hasWord "home" cmd || hasWord "center" cmd then ("home", 0, true)
  else if hasWord "stop" cmd || hasWord "halt" cmd then ("stop", 0, true)
  else
    let magnitude : ℚ := ((first_number cmd).getD 30 : ℕ)
    if hasWord "pan" cmd || hasWord "left" cmd || hasWord "right" cmd then
      ("pan", if hasWord "left" cmd then -magnitude else magnitude, true)
    else if hasWord "tilt" cmd || hasWord "up" cmd || hasWord "down" cmd then
      ("tilt", if hasWord "up" cmd then magnitude else -magnitude, true)
    else ("error", 0, false)

/-- Claim C3: on every input the fallback parser realises exactly the
claimed cascade (including the pan-before-tilt tie-break and
substring-containment matching, which `fallback_claim` transcribes),
and the five quoted examples plus the no-digit default behave as
stated. -/
theorem claim_C3 :
    (∀ command : String,
      ((fallback_parsing command).action, (fallback_parsing command).value,
       (fallback_parsing command).success) = fallback_claim command) ∧
    fallback_parsing "pan left 45" =
      { action := "pan", value := -45, message := "Panning left 45°" } ∧
    fallback_parsing "tilt up 30" =
      { action := "tilt", value := 30, message := "Tilting up 30°" } ∧
    fallback_parsing "go home" =
      { action := "home", message := "Moving to home position" } ∧
    fallback_parsing "stop now" =
      { action := "stop", message := "Stopping movement" } ∧
    fallback_parsing "xyzzy" =
      { action := "error", message := "Command not understood", success := false } ∧
    fallback_parsing "pan left" =
      { action := "pan", value := -30, message := "Panning left 30°" } := by
  refine ⟨?_, by decide, by decide, by decide, by decide, by decide, by decide⟩
  intro command
  unfold fallback_parsing fallback_claim
  dsimp only
  split_ifs <;> simp

/-- The fallback parser yields an error action only in its final branch,
where the command is unsuccessful with the fixed diagnostic text. -/
theorem fallback_cases (t : String) :
    (fallback_parsing t).action ≠ "error" ∨
    ((fallback_parsing t).success = false ∧
     (fallback_parsing t).message = "Command not understood") := by
  unfold fallback_parsing
  dsimp only
  split_ifs <;> simp

/-- Every command built from a successfully parsed remote JSON response
carries `success = true`, straight from the constructor call in the
source. -/
theorem llm_success (l : List Char) (c : GimbalCommand)
    (h : llm_parse_result l = some c) : c.success = true := by
  unfold llm_parse_result at h
  split at h
  · exact absurd h (by simp)
  · split at h
    · exact absurd h (by simp)
    · dsimp only at h
      split at h
      · injection h with h2
        rw [← h2]
      · exact absurd h (by simp)

/-- Claim C4, amended: an error-action command out of `process_command`
is unsuccessful with a non-empty diagnostic unless it was built from a
successfully parsed remote JSON response, in which case it carries
`success = true` even though its action reads `error`. -/
theorem claim_C4 (avail : Bool) (resp : Option String) (text : String)
    (herr : (process_command avail resp text).action = "error") :
    ((process_command avail resp text).success = false ∧
     (process_command avail resp text).message ≠ "") ∨
    (avail = true ∧ (process_command avail resp text).success = true ∧
     ∃ r : String, resp = some r ∧
       llm_parse_result (py_strip r.data) = some (process_command avail resp text)) := by
  have hfb : ∀ ht : (process_command avail resp text) = fallback_parsing text,
      ((process_command avail resp text).success = false ∧
       (process_command avail resp text).message ≠ "") := by
    intro ht
    rw [ht] at herr ⊢
    rcases fallback_cases text with hne | hok
    · exact absurd herr hne
    · exact ⟨hok.1, by rw [hok.2]; decide⟩
  cases avail with
  | false => exact Or.inl (hfb rfl)
  | true =>
    cases resp with
    | none => exact Or.inl (hfb rfl)
    | some r =>
      have hproc : process_command true (some r) text
          = parse_llm_response (String.mk (py_strip r.data)) text := rfl
      cases hres : llm_parse_result (py_strip r.data) with
      | none =>
        refine Or.inl (hfb ?_)
        rw [hproc]
        unfold parse_llm_response
        rw [show (String.mk (py_strip r.data)).data = py_strip r.data from rfl, hres]
      | some c =>
        have hc : process_command true (some r) text = c := by
          rw [hproc]
          unfold parse_llm_response
          rw [show (String.mk (py_strip r.data)).data = py_strip r.data from rfl, hres]
        refine Or.inr ⟨rfl, ?_, r, rfl, ?_⟩
        · rw [hc]
          exact llm_success _ _ hres
        · rw [hc]
          exact hres

/-- Counterexample to C4 as stated: a remote response whose JSON object
names the action `error` is parsed successfully, so the returned
command has action `error` yet `success = true`. -/
theorem claim_C4_counterexample :
    (process_command true (some "\x7b\"action\":\"error\"\x7d") "pan left 45").action
      = "error" ∧
    (process_command true (some "\x7b\"action\":\"error\"\x7d") "pan left 45").success
      = true := by
  constructor <;> decide

/-- Witness for the amended C4 on the fallback path at a concrete
unparseable text. -/
theorem claim_C4_witness :
    ((process_command false none "xyzzy").success = false ∧
     (process_command false none "xyzzy").message ≠ "") ∨
    (false = true ∧ (process_command false none "xyzzy").success = true ∧
     ∃ r : String, (none : Option String) = some r ∧
       llm_parse_result (py_strip r.data) = some (process_command false none "xyzzy")) :=
  claim_C4 false none "xyzzy" (by decide)

/-- Claim C8: when the response text holds no parseable brace-delimited
JSON object, the interpreter returns exactly the fallback parser's
command for the original input text. -/
theorem claim_C8 (resp text : String)
    (h : has_parseable_json resp.data = false) :
    parse_llm_response resp text = fallback_parsing text := by
  unfold has_parseable_json at h
  unfold parse_llm_response llm_parse_result
  cases hx : extract_brace resp.data with
  | none => simp only [hx]
  | some cand =>
    simp only [hx] at h
    cases hj : json_loads cand with
    | none => simp only [hx, hj]
    | some data =>
      rw [hj] at h
      simp at h

/-- Witness for C8 at a plain-text response. -/
theorem claim_C8_witness :
    has_parseable_json "I cannot parse that request".data = false ∧
    parse_llm_response "I cannot parse that request" "tilt up 30"
      = fallback_parsing "tilt up 30" :=
  ⟨by decide, claim_C8 _ _ (by decide)⟩

end Gimbal
